import Mathlib

/-!
Verification development for the incident triage autopilot.

The Python sources under app/ are shallowly embedded below: pure functions
become Lean functions, floats become rationals, dynamic (duck-typed) JSON
values become an explicit Json inductive, and Python exceptions become
Except results.  Association lists model Python dicts under the convention
that keys are unique (json.loads produces dicts, which cannot hold
duplicate keys).
-/

namespace Autopilot

/-! ## Domain enums (app/models.py) -/

/-- Environment classification (app/models.py, class Environment). -/
inductive Environment where
  | prod | staging | dev | unknown
deriving DecidableEq, Repr

/-- String value of an Environment, as in the Python str enum. -/
def environmentValue : Environment → String
  | .prod => "prod"
  | .staging => "staging"
  | .dev => "dev"
  | .unknown => "unknown"

/-- Incident severity levels (app/models.py, class Severity). -/
inductive Severity where
  | P1 | P2 | P3 | P4
deriving DecidableEq, Repr

/-- String value of a Severity, as in the Python str enum. -/
def severityValue : Severity → String
  | .P1 => "P1"
  | .P2 => "P2"
  | .P3 => "P3"
  | .P4 => "P4"

/-- Enum-by-value lookup, modelling the `Severity(s)` constructor which
raises ValueError (here: none) on an unknown value. -/
def severityFromString : String → Option Severity
  | "P1" => some .P1
  | "P2" => some .P2
  | "P3" => some .P3
  | "P4" => some .P4
  | _ => none

/-- Types of incidents (app/models.py, class IncidentType). -/
inductive IncidentType where
  | deployment | database | network | application | security | infrastructure | unknown
deriving DecidableEq, Repr

/-- String value of an IncidentType, as in the Python str enum. -/
def incidentTypeValue : IncidentType → String
  | .deployment => "deployment"
  | .database => "database"
  | .network => "network"
  | .application => "application"
  | .security => "security"
  | .infrastructure => "infrastructure"
  | .unknown => "unknown"

/-- Enum-by-value lookup for IncidentType, none on unknown value. -/
def incidentTypeFromString : String → Option IncidentType
  | "deployment" => some .deployment
  | "database" => some .database
  | "network" => some .network
  | "application" => some .application
  | "security" => some .security
  | "infrastructure" => some .infrastructure
  | "unknown" => some .unknown
  | _ => none

/-! ## JSON values

Python dicts/lists/scalars arriving from json.loads, modelled as an
inductive.  Numbers are rationals (Python floats and ints collapsed; none
of the verified claims depends on float rounding). -/

inductive Json where
  | null
  | bool (b : Bool)
  | num (q : ℚ)
  | str (s : String)
  | arr (items : List Json)
  | obj (fields : List (String × Json))

/-! ### String helpers

Character-list based implementations of lower/upper/strip, so that every
definition reduces inside the kernel (the position-based core String
functions do not). -/

/-- Python s.lower() (ASCII-exact, as in all the texts concerned). -/
def strLower (s : String) : String := ⟨s.toList.map Char.toLower⟩

/-- Python s.upper(). -/
def strUpper (s : String) : String := ⟨s.toList.map Char.toUpper⟩

/-- Python s.strip(). -/
def strTrim (s : String) : String :=
  ⟨((s.toList.dropWhile Char.isWhitespace).reverse.dropWhile
      Char.isWhitespace).reverse⟩

/-- Concatenation of a list of strings with a separator, list-based. -/
def joinWith (sep : String) : List String → String
  | [] => ""
  | [x] => x
  | x :: xs => x ++ sep ++ joinWith sep xs

/-- Lookup in an association list modelling `d.get(k, default)` on a dict. -/
def jgetD (fields : List (String × Json)) (k : String) (d : Json) : Json :=
  match fields.find? (fun kv => kv.1 == k) with
  | some kv => kv.2
  | none => d

/-- `v.get(k, default)`: raises AttributeError when `v` is not a dict. -/
def pyGetD (v : Json) (k : String) (d : Json) : Except String Json :=
  match v with
  | .obj m => .ok (jgetD m k d)
  | _ => .error "AttributeError: get"

/-- Python truthiness of a JSON value. -/
def pyTruthy : Json → Bool
  | .null => false
  | .bool b => b
  | .num q => q != 0
  | .str s => s ≠ ""
  | .arr l => !l.isEmpty
  | .obj m => !m.isEmpty

/-- Python `str(v)`.  Exact on strings, booleans, None and plain numbers;
the rendering of lists and dicts is approximated (no verified claim
inspects those strings). -/
def pyStr : Json → String
  | .null => "None"
  | .bool true => "True"
  | .bool false => "False"
  | .num q => toString q
  | .str s => s
  | .arr _ => "<list>"
  | .obj _ => "<dict>"

/-- `v.lower()`: only strings have the method; AttributeError otherwise. -/
def pyLower : Json → Except String String
  | .str s => .ok (strLower s)
  | _ => .error "AttributeError: lower"

/-- `v.upper()`: only strings have the method; AttributeError otherwise. -/
def pyUpper : Json → Except String String
  | .str s => .ok (strUpper s)
  | _ => .error "AttributeError: upper"

/-- Pydantic validation of a `str` field: any non-string raises. -/
def expectStr : Json → Except String String
  | .str s => .ok s
  | _ => .error "ValidationError: str expected"

/-- `a or b` on JSON values (first operand when truthy, else second). -/
def pyOr (a b : Json) : Json :=
  if pyTruthy a then a else b

/-! ## Normalized incident and LLM verdict records (app/models.py) -/

/-- NormalizedIncident (app/models.py). -/
structure NormalizedIncident where
  jiraKey : String
  summary : String
  description : String
  labels : List String
  component : String
  environment : Environment
  reporter : String
  createdAt : Int
  rawPayload : Json

/-- LLMTriageResult (app/models.py): confidence is a rational in place of
the Python float. -/
structure LLMTriageResult where
  incidentType : IncidentType
  severity : Severity
  confidence : ℚ
  ownerTeam : String
  shortSummary : String
  firstActions : List String
  runbookSuggestion : String

/-- PolicyResult (app/models.py). -/
structure PolicyResult where
  originalSeverity : Severity
  finalSeverity : Severity
  severityOverridden : Bool
  overrideReason : Option String
  needsHumanReview : Bool
  confidence : ℚ
  labelsToAdd : List String

/-! ## Keyword matching (app/services/policy.py)

The source compiles each keyword to the regex `\bKEYWORD\b` and calls
re.search over the lowercased text.  Here a pattern is the literal keyword
and the word-boundary semantics are implemented directly: the pattern must
occur with no word character (alphanumeric or underscore) adjacent on
either side.  The one non-literal source pattern `\btimeouts?\b` is
expanded into its two alternatives in OUTAGE_KEYWORDS, and
`\bpre-?prod\b` (normalizer) into its two alternatives. -/

def isWordChar (c : Char) : Bool := c.isAlphanum || c == '_'

/-- Does the non-head of the remaining text start with a non-word char
(or end of string)?  Used for the right word boundary. -/
def boundaryAfter : List Char → Bool
  | [] => true
  | c :: _ => !isWordChar c

/-- Left boundary test for the character just before the current scan
position, if any. -/
def boundaryBefore : Option Char → Bool
  | none => true
  | some c => !isWordChar c

/-- Does the pattern match at the current position with word boundaries on
both sides? -/
def matchHere (pat : List Char) (pre : Option Char) (t : List Char) : Bool :=
  boundaryBefore pre && pat.isPrefixOf t && boundaryAfter (t.drop pat.length)

/-- Scan of the text for the pattern at a word boundary; `pre` is the
character just before the current position, if any. -/
def wordScan (pat : List Char) : Option Char → List Char → Bool
  | pre, [] => matchHere pat pre []
  | pre, c :: rest => matchHere pat pre (c :: rest) || wordScan pat (some c) rest

/-- re.search of the word-boundary pattern over the lowercased text. -/
def wordBoundaryMatch (text pat : String) : Bool :=
  wordScan pat.toList none text.toList

/-- _contains_keywords (app/services/policy.py): the text is lowercased,
then each pattern is searched. -/
def containsKeywords (text : String) (keywords : List String) : Bool :=
  keywords.any (fun pat => wordBoundaryMatch (strLower text) pat)

/-- OUTAGE_KEYWORDS (app/services/policy.py); `timeouts?` expanded. -/
def OUTAGE_KEYWORDS : List String :=
  ["outage", "down", "service unavailable", "500", "error rate spike",
   "cannot", "failing", "timeout", "timeouts"]

/-- SECURITY_KEYWORDS (app/services/policy.py). -/
def SECURITY_KEYWORDS : List String :=
  ["security", "breach", "unauthorized", "leak", "exfiltration",
   "exploit", "vulnerability", "cve"]

/-- CONFIDENCE_THRESHOLD = 0.70 (app/services/policy.py). -/
def CONFIDENCE_THRESHOLD : ℚ := Rat.divInt 7 10

/-- SEVERITY_ORDER (app/services/policy.py): lower number = more severe. -/
def severityOrder : Severity → Nat
  | .P1 => 1
  | .P2 => 2
  | .P3 => 3
  | .P4 => 4

/-- _cap_severity (app/services/policy.py). -/
def capSeverity (severity maxSeverity : Severity) : Severity :=
  if severityOrder severity < severityOrder maxSeverity then maxSeverity
  else severity

/-- _raise_severity (app/services/policy.py). -/
def raiseSeverity (severity minSeverity : Severity) : Severity :=
  if severityOrder severity > severityOrder minSeverity then minSeverity
  else severity

/-- PolicyEngine.apply_policies (app/services/policy.py).

Faithful transcription of the rule chain:
1. non-prod cap to P3 (the prod-only rules sit in the else branch and
   are skipped entirely when env is not prod);
2. prod outage keywords raise to at least P2;
3. prod security keywords set P1 unconditionally;
4. low confidence flags for human review. -/
def applyPolicies (incident : NormalizedIncident) (llm : LLMTriageResult) :
    PolicyResult :=
  let originalSeverity := llm.severity
  let searchableText := incident.summary ++ " " ++ incident.description
  let sevReason : Severity × Option String :=
    if incident.environment ≠ Environment.prod then
      if severityOrder llm.severity < severityOrder Severity.P3 then
        (capSeverity llm.severity Severity.P3,
         some ("Non-production environment (" ++
               environmentValue incident.environment ++ ") capped to P3"))
      else (llm.severity, none)
    else
      let afterOutage : Severity × Option String :=
        if containsKeywords searchableText OUTAGE_KEYWORDS then
          if severityOrder llm.severity > severityOrder Severity.P2 then
            (raiseSeverity llm.severity Severity.P2,
             some "Production outage keywords detected, raised to P2")
          else (llm.severity, none)
        else (llm.severity, none)
      if containsKeywords searchableText SECURITY_KEYWORDS then
        (Severity.P1, some "Production security keywords detected, set to P1")
      else afterOutage
  let finalSeverity := sevReason.1
  let needsHumanReview := decide (llm.confidence < CONFIDENCE_THRESHOLD)
  let labelsToAdd :=
    ["autopilot",
     "type:" ++ incidentTypeValue llm.incidentType,
     "sev:" ++ severityValue finalSeverity] ++
    (if needsHumanReview then ["needs-review"] else [])
  { originalSeverity := originalSeverity
    finalSeverity := finalSeverity
    severityOverridden := decide (originalSeverity ≠ finalSeverity)
    overrideReason := sevReason.2
    needsHumanReview := needsHumanReview
    confidence := llm.confidence
    labelsToAdd := labelsToAdd }

/-! ## Mock LLM provider (app/services/llm_client.py, MockProvider.triage)

Keyword tests in the source are plain substring checks (`kw in combined`),
not word-boundary searches. -/

/-- Substring scan over character lists. -/
def infixScan (pat : List Char) : List Char → Bool
  | [] => pat.isPrefixOf []
  | c :: rest => pat.isPrefixOf (c :: rest) || infixScan pat rest

/-- Python substring test `kw in text`. -/
def substrIn (kw text : String) : Bool :=
  infixScan kw.toList text.toList

/-- MockProvider.triage (app/services/llm_client.py). -/
def mockTriage (incident : NormalizedIncident) : LLMTriageResult :=
  let combined := strLower incident.summary ++ " " ++ strLower incident.description
  let hit := fun (kws : List String) => kws.any (fun kw => substrIn kw combined)
  let typeTeam : IncidentType × String :=
    if hit ["deploy", "release", "rollout", "ci/cd"] then
      (.deployment, "platform")
    else if hit ["database", "db", "sql", "query", "postgres", "mysql"] then
      (.database, "data-platform")
    else if hit ["network", "dns", "load balancer", "connectivity", "timeout"] then
      (.network, "infrastructure")
    else if hit ["security", "breach", "unauthorized", "vulnerability"] then
      (.security, "security")
    else if hit ["infrastructure", "server", "vm", "cloud", "aws", "gcp"] then
      (.infrastructure, "infrastructure")
    else
      (.application, "engineering")
  let severity : Severity :=
    if hit ["security", "breach", "critical", "p1"] then .P1
    else if hit ["outage", "down", "500", "cannot", "failing"] then .P2
    else if hit ["degraded", "slow", "intermittent"] then .P3
    else .P4
  { incidentType := typeTeam.1
    severity := severity
    confidence := Rat.divInt 17 20
    ownerTeam := typeTeam.2
    shortSummary := "[MOCK] " ++ incident.summary.take 100
    firstActions :=
      ["Check " ++ incident.component ++ " service logs",
       "Review monitoring dashboards for anomalies",
       "Check recent deployments or changes",
       "Verify " ++ environmentValue incident.environment ++ " environment health",
       "Escalate to on-call if severity warrants"]
    runbookSuggestion := "runbook-" ++ incidentTypeValue typeTeam.1 ++ "-general" }

/-! ## LLM response parsing (app/services/llm_client.py, _parse_llm_response)

The source strips markdown fences and json.loads the string, then coerces
the resulting value.  The embedding starts from the parsed JSON value; the
claims about the parser quantify over JSON objects. -/

/-- Digits of a decimal string to a natural number. -/
def digitsToNat (l : List Char) : Nat :=
  l.foldl (fun acc c => acc * 10 + (c.toNat - 48)) 0

/-- Python float(s) on a decimal string: optional sign, integer and/or
fractional digits.  Exponents and special values are not modelled (no
claim depends on them); surrounding whitespace is stripped as float does. -/
def parseDecimal (s : String) : Option ℚ :=
  let t := (strTrim s).toList
  let (sign, t) : ℚ × List Char :=
    match t with
    | '-' :: rest => (-1, rest)
    | '+' :: rest => (1, rest)
    | _ => (1, t)
  let intPart := t.takeWhile Char.isDigit
  let rest := t.drop intPart.length
  match rest with
  | [] =>
    if intPart.isEmpty then none
    else some (sign * digitsToNat intPart)
  | '.' :: fracPart =>
    if fracPart.all Char.isDigit ∧ ¬(intPart.isEmpty ∧ fracPart.isEmpty) then
      some (sign * ((digitsToNat intPart : ℚ) +
        Rat.divInt (digitsToNat fracPart) (10 ^ fracPart.length)))
    else none
  | _ => none

/-- Python float(v): numbers pass through, booleans become 0/1, numeric
strings parse, everything else raises. -/
def pyFloat : Json → Except String ℚ
  | .num q => .ok q
  | .bool b => .ok (if b then 1 else 0)
  | .str s =>
    match parseDecimal s with
    | some q => .ok q
    | none => .error "ValueError: float"
  | _ => .error "TypeError: float"

/-- _parse_llm_response (app/services/llm_client.py), from the json.loads
result onward.  Category and severity are coerced with unknown values
falling back to unknown and P4, confidence is clamped to [0,1], and the
first-actions list is truncated to 7 entries.  A `.get` on a non-object
and `.lower()/.upper()/float()` on wrongly-typed field values raise, as in
Python. -/
def parse_llm_response (data : Json) : Except String LLMTriageResult :=
  match data with
  | .obj m =>
    match pyLower (jgetD m "incident_type" (.str "unknown")) with
    | .error e => .error e
    | .ok itStr =>
      let incidentType := (incidentTypeFromString itStr).getD IncidentType.unknown
      match pyUpper (jgetD m "severity" (.str "P4")) with
      | .error e => .error e
      | .ok sevStr =>
        let severity := (severityFromString sevStr).getD Severity.P4
        match pyFloat (jgetD m "confidence" (.num (Rat.divInt 1 2))) with
        | .error e => .error e
        | .ok confRaw =>
          let confidence := max 0 (min 1 confRaw)
          let firstActions : List String :=
            match jgetD m "first_actions" (.arr []) with
            | .arr l => (l.take 7).map pyStr
            | v => [pyStr v]
          .ok { incidentType := incidentType
                severity := severity
                confidence := confidence
                ownerTeam := pyStr (jgetD m "owner_team" (.str "platform"))
                shortSummary := pyStr (jgetD m "short_summary" (.str ""))
                firstActions := firstActions
                runbookSuggestion := pyStr (jgetD m "runbook_suggestion" (.str "")) }
  | _ => .error "AttributeError: get"

/-! ## Normalizer (app/services/normalizer.py) -/

/-- ENVIRONMENT_PATTERNS (app/services/normalizer.py), in source dict
order; the one non-literal pattern `pre-?prod` is expanded into its two
alternatives. -/
def ENVIRONMENT_PATTERNS : List (Environment × List String) :=
  [(.prod, ["prod", "production", "prd", "live"]),
   (.staging, ["staging", "stage", "stg", "uat", "pre-prod", "preprod"]),
   (.dev, ["dev", "development", "test", "qa", "local", "sandbox"])]

/-- detect_environment (app/services/normalizer.py), applied to the
already-joined searchable text: first environment whose pattern list
matches wins, in dict order prod, staging, dev. -/
def detectEnvironment (searchable : String) : Environment :=
  match ENVIRONMENT_PATTERNS.find?
      (fun ep => ep.2.any (fun pat => wordBoundaryMatch (strLower searchable) pat)) with
  | some ep => ep.1
  | none => Environment.unknown

/-- extract_labels (app/services/normalizer.py): a list field maps each
element through str(); anything else yields []. -/
def extract_labels (labelsJson : Json) : List String :=
  match labelsJson with
  | .arr l => l.map pyStr
  | _ => []

/-- extract_component (app/services/normalizer.py): first component of a
non-empty list, name of a dict entry or the entry itself when a string;
the default is "unknown".  The value is validated as a string only at
record construction, as in pydantic. -/
def extract_component (componentsJson : Json) : Json :=
  match componentsJson with
  | .arr (first :: _) =>
    (match first with
     | .obj m => jgetD m "name" (.str "unknown")
     | .str s => .str s
     | _ => .str "unknown")
  | _ => .str "unknown"

/-- extract_reporter (app/services/normalizer.py). -/
def extract_reporter (reporterJson : Json) : Json :=
  match reporterJson with
  | .obj m => pyOr (jgetD m "displayName" .null) (jgetD m "name" (.str "unknown"))
  | .str s => .str s
  | _ => .str "unknown"

/-- Component name list used for environment detection
(app/services/normalizer.py, lines building component_names): iterating a
list keeps dict names and plain strings; iterating a string yields
one-character strings, which are kept; iterating a dict yields its keys;
iterating any other value raises TypeError. -/
def componentNamesOf (componentsJson : Json) : Except String (List Json) :=
  match componentsJson with
  | .arr l =>
    .ok (l.filterMap (fun c =>
      match c with
      | .obj m => some (jgetD m "name" (.str ""))
      | .str s => some (.str s)
      | _ => none))
  | .str s => .ok (s.toList.map (fun c => .str (String.singleton c)))
  | .obj m => .ok (m.map (fun kv => .str kv.1))
  | _ => .error "TypeError: not iterable"

/-- " ".join(values): raises TypeError when any value is not a string. -/
def joinStrs (l : List Json) : Except String String := do
  let strs ← l.mapM expectStr
  .ok (joinWith " " strs)

mutual

/-- ADF text extraction (app/services/normalizer.py,
_extract_text_from_adf): nodes of type "text" contribute their text value
in document order; other dict nodes are descended via their content list.
Iterating a non-iterable content value raises; iterating a string or dict
contributes nothing (their elements are strings, which the walker
ignores). -/
def adfTexts : Json → Except String (List Json)
  | .obj m => do
    let own : List Json :=
      match jgetD m "type" Json.null with
      | .str t => if t = "text" then [jgetD m "text" (.str "")] else []
      | _ => []
    let kids ← adfContentList m
    .ok (own ++ kids)
  | .arr l => adfList l
  | _ => .ok []

/-- Finds the content entry of the node, walking the association list. -/
def adfContentList : List (String × Json) → Except String (List Json)
  | [] => .ok []
  | (k, v) :: rest =>
    if k = "content" then adfContentValue v else adfContentList rest

def adfContentValue : Json → Except String (List Json)
  | .arr l => adfList l
  | .str _ => .ok []
  | .obj _ => .ok []
  | _ => .error "TypeError: content not iterable"

def adfList : List Json → Except String (List Json)
  | [] => .ok []
  | x :: xs => do
    let a ← adfTexts x
    let b ← adfList xs
    .ok (a ++ b)

end

/-- Simplified ISO-8601 instant parse for the Jira created field, after
the source cleanup `s.replace("Z", "+00:00").split("+")[0]`: accepts
YYYY-MM-DD optionally followed by THH:MM:SS and a fractional part.  The
value is encoded into a single integer; exact calendar arithmetic is not
load-bearing for any claim. -/
def isoParse (s : String) : Option Int :=
  let cs := s.toList
  match cs with
  | y1 :: y2 :: y3 :: y4 :: '-' :: m1 :: m2 :: '-' :: d1 :: d2 :: rest =>
    if [y1, y2, y3, y4, m1, m2, d1, d2].all Char.isDigit then
      let y := digitsToNat [y1, y2, y3, y4]
      let mo := digitsToNat [m1, m2]
      let d := digitsToNat [d1, d2]
      if 1 ≤ mo ∧ mo ≤ 12 ∧ 1 ≤ d ∧ d ≤ 31 then
        let dateVal : Int := ((y * 12 + (mo - 1)) * 31 + (d - 1)) * 86400
        match rest with
        | [] => some dateVal
        | 'T' :: h1 :: h2 :: ':' :: n1 :: n2 :: ':' :: s1 :: s2 :: tail =>
          if [h1, h2, n1, n2, s1, s2].all Char.isDigit then
            let h := digitsToNat [h1, h2]
            let mi := digitsToNat [n1, n2]
            let sec := digitsToNat [s1, s2]
            let fracOk :=
              match tail with
              | [] => true
              | '.' :: fs => !fs.isEmpty && fs.all Char.isDigit
              | _ => false
            if (h ≤ 23 ∧ mi ≤ 59 ∧ sec ≤ 59) ∧ fracOk = true then
              some (dateVal + (h * 3600 + mi * 60 + sec))
            else none
          else none
        | _ => none
      else none
    else none
  | _ => none

/-- The created-timestamp handling (app/services/normalizer.py): a falsy
or non-string value, and any parse failure, falls back to now; otherwise
the cleaned string is parsed. -/
def parseCreated (createdJson : Json) (now : Int) : Int :=
  match createdJson with
  | .str s =>
    if s = "" then now
    else
      let cleaned :=
        match (s.replace "Z" "+00:00").splitOn "+" with
        | [] => ""
        | first :: _ => first
      (isoParse cleaned).getD now
  | _ => now

/-- The issue/fields/issuetype extraction prefix of normalize_jira_webhook
(app/services/normalizer.py): returns the lowercased issue type name
together with the issue and fields values. -/
def webhookHeader (payload : Json) : Except String (String × Json × Json) := do
  let issue ← pyGetD payload "issue" (.obj [])
  let fields ← pyGetD issue "fields" (.obj [])
  let issueType ← pyGetD fields "issuetype" (.obj [])
  let typeName ←
    match issueType with
    | .obj m => pyLower (jgetD m "name" (.str ""))
    | v => .ok (strLower (pyStr v))
  .ok (typeName, issue, fields)

/-- The body of normalize_jira_webhook after the issue-type and key
checks: field extraction, ADF handling, environment detection, created
parsing and pydantic validation of the record fields. -/
def buildIncident (payload fields keyJson : Json) (now : Int) :
    Except String NormalizedIncident := do
  let summaryJ := pyOr (← pyGetD fields "summary" (.str "")) (.str "")
  let descriptionRaw := pyOr (← pyGetD fields "description" (.str "")) (.str "")
  let descriptionJ ←
    match descriptionRaw with
    | .obj m => do
      let texts ← adfTexts (.obj m)
      let s ← joinStrs texts
      pure (Json.str s)
    | v => pure v
  let labels := extract_labels (← pyGetD fields "labels" (.arr []))
  let componentJ := extract_component (← pyGetD fields "components" (.arr []))
  let reporterJ := extract_reporter (← pyGetD fields "reporter" .null)
  let componentNames ← componentNamesOf (← pyGetD fields "components" (.arr []))
  let searchable ←
    joinStrs ([summaryJ, descriptionJ] ++ labels.map Json.str ++ componentNames)
  let environment := detectEnvironment searchable
  let createdAt := parseCreated (← pyGetD fields "created" .null) now
  let jiraKey ← expectStr keyJson
  let summary ← expectStr summaryJ
  let description ← expectStr descriptionJ
  let component ← expectStr componentJ
  let reporter ← expectStr reporterJ
  .ok { jiraKey := jiraKey
        summary := summary
        description := description
        labels := labels
        component := component
        environment := environment
        reporter := reporter
        createdAt := createdAt
        rawPayload := payload }

/-- normalize_jira_webhook (app/services/normalizer.py): ok none models
the Python None return ("not an incident" / missing key skip), error
models a raised exception. -/
def normalize_jira_webhook (payload : Json) (now : Int) :
    Except String (Option NormalizedIncident) :=
  match webhookHeader payload with
  | .error e => .error e
  | .ok (typeName, issue, fields) =>
    if typeName ≠ "incident" then .ok none
    else
      match pyGetD issue "key" (.str "") with
      | .error e => .error e
      | .ok keyJson =>
        if pyTruthy keyJson = false then .ok none
        else (buildIncident payload fields keyJson now).map some

/-! ## Correlation store and correlator
(app/db/database.py, app/services/correlator.py)

Rows of the incidents table; created_at instants are integers, with the
SQLite text comparison on isoformat strings modelled by integer order.
The difflib SequenceMatcher ratio is kept as an explicit function
parameter `sim`: the verified claims hold for every similarity function,
and the counterexample instantiates it consistently with the real ratio
(identical strings have ratio 1). -/

structure IncidentRow where
  jiraKey : String
  summary : String
  component : String
  environment : String
  createdAt : Int

/-- Database.find_correlated_incidents (app/db/database.py): same
component, created strictly after now minus the window, and the queried
key excluded only when the exclude argument is truthy (non-empty). -/
def find_correlated_incidents (db : List IncidentRow) (now : Int)
    (component : String) (windowMinutes : Int) (excludeKey : String) :
    List IncidentRow :=
  let cutoff := now - windowMinutes * 60
  db.filter (fun r =>
    r.component == component && decide (cutoff < r.createdAt) &&
    (if excludeKey ≠ "" then r.jiraKey != excludeKey else true))

/-- CorrelatorService._calculate_similarity (app/services/correlator.py):
lowercase and strip both strings before the ratio. -/
def calculate_similarity (sim : String → String → ℚ) (a b : String) : ℚ :=
  sim (strTrim (strLower a)) (strTrim (strLower b))

/-- The similarity threshold set in CorrelatorService.__init__. -/
def SIMILARITY_THRESHOLD : ℚ := Rat.divInt 3 5

/-- CorrelatorService.check_correlation (app/services/correlator.py). -/
def check_correlation (sim : String → String → ℚ) (db : List IncidentRow)
    (now : Int) (windowMinutes : Int) (incident : NormalizedIncident) :
    Bool × Option String :=
  if incident.component == "unknown" then (false, none)
  else
    let related := find_correlated_incidents db now incident.component
      windowMinutes incident.jiraKey
    match related.find? (fun r =>
        decide (SIMILARITY_THRESHOLD ≤
          calculate_similarity sim incident.summary r.summary)) with
    | some r => (true, some r.jiraKey)
    | none => (false, none)

/-! ## Risk scorer (app/services/risk.py) -/

/-- SEVERITY_WEIGHTS (app/services/risk.py). -/
def severityWeight : Severity → ℚ
  | .P1 => 1
  | .P2 => Rat.divInt 3 4
  | .P3 => Rat.divInt 1 2
  | .P4 => Rat.divInt 1 4

/-- ENVIRONMENT_WEIGHTS (app/services/risk.py). -/
def environmentWeight : Environment → ℚ
  | .prod => 1
  | .staging => Rat.divInt 1 2
  | .dev => Rat.divInt 1 4
  | .unknown => Rat.divInt 1 2

/-- calculate_risk_score (app/services/risk.py). -/
def calculate_risk_score (severity : Severity) (confidence : ℚ)
    (environment : Environment) : ℚ :=
  let risk := severityWeight severity * Rat.divInt 2 5 +
    (1 - confidence) * Rat.divInt 3 10 + environmentWeight environment * Rat.divInt 3 10
  max 0 (min 1 risk)

/-! ## Runbook matcher (app/services/runbook_matcher.py)

The runbook catalog is loaded from data/seed_runbooks.json, which is not
part of the sources here; the matcher is therefore parametric in the
catalog, whose entry shape (display name, url, steps) follows the load
site usage. -/

structure RunbookEntry where
  name : Option String
  runbookUrl : Option String
  steps : Option (List String)

/-- RunbookFit (app/models.py). -/
structure RunbookFit where
  runbookKey : String
  runbookName : String
  fitScore : ℚ
  runbookUrl : String
  steps : List String

/-- RUNBOOK_KEYWORDS (app/services/runbook_matcher.py). -/
def RUNBOOK_KEYWORDS : List (String × List String) :=
  [("deployment",
    ["deploy", "release", "rollout", "ci/cd", "pipeline", "build",
     "container", "kubernetes", "k8s", "helm", "docker", "image",
     "version", "upgrade", "rollback", "canary", "blue-green"]),
   ("database",
    ["database", "db", "sql", "query", "postgres", "mysql", "mongo",
     "redis", "cache", "connection pool", "replication", "deadlock",
     "slow query", "index", "migration", "backup", "restore"]),
   ("network",
    ["network", "dns", "load balancer", "connectivity", "timeout",
     "latency", "ssl", "tls", "certificate", "firewall", "vpc",
     "routing", "proxy", "nginx", "haproxy", "cdn"]),
   ("application",
    ["application", "app", "error", "exception", "crash", "memory",
     "cpu", "performance", "slow", "degraded", "bug", "500",
     "api", "endpoint", "service", "microservice"]),
   ("security",
    ["security", "breach", "unauthorized", "vulnerability", "cve",
     "attack", "intrusion", "suspicious", "malware", "phishing",
     "credential", "leak", "exposure", "audit"]),
   ("infrastructure",
    ["infrastructure", "server", "vm", "cloud", "aws", "gcp", "azure",
     "instance", "scaling", "autoscale", "disk", "storage", "compute",
     "region", "zone", "availability"])]

/-- calculate_keyword_overlap (app/services/runbook_matcher.py). -/
def calculate_keyword_overlap (text : String) (keywords : List String) : ℚ :=
  if text = "" ∨ keywords = [] then 0
  else
    let textLower := strLower text
    let numMatches : ℚ :=
      (keywords.filter (fun kw => substrIn (strLower kw) textLower)).length
    let baseScore := numMatches / (keywords.length : ℚ)
    let boost := min 2 (1 + numMatches * Rat.divInt 1 10)
    min 1 (baseScore * boost)

/-- Python round(x, 2); the source rounds fit scores to two decimals.
Mathlib round (ties away from the nearest even are not distinguished by
any claim). -/
def roundQ2 (q : ℚ) : ℚ := Rat.divInt (round (q * 100) : ℤ) 100

/-- Python str.title() on a catalog key, approximated by capitalizing the
first character (never load-bearing). -/
def titleCase (s : String) : String := s.capitalize

/-- make_runbook_fit (app/services/runbook_matcher.py). -/
def make_runbook_fit (score : ℚ) (key : String) (data : RunbookEntry) :
    RunbookFit :=
  { runbookKey := key
    runbookName := data.name.getD (titleCase key)
    fitScore := roundQ2 score
    runbookUrl := data.runbookUrl.getD ""
    steps := data.steps.getD [] }

/-- match_runbooks (app/services/runbook_matcher.py): per catalog entry,
0.6 weight on exact category match plus 0.4 weight on keyword overlap;
stable sort descending; the primary is the top entry (IndexError on an
empty catalog), alternatives the next three with score above 0.1. -/
def match_runbooks (runbooks : List (String × RunbookEntry))
    (incidentType : IncidentType) (title description : String) :
    Except String (RunbookFit × List RunbookFit) :=
  let combinedText := title ++ " " ++ description
  let scored := runbooks.map (fun kd =>
    let typeScore : ℚ := if kd.1 = incidentTypeValue incidentType then 1 else 0
    let keywordScore := calculate_keyword_overlap combinedText
      (match RUNBOOK_KEYWORDS.find? (fun p => p.1 == kd.1) with
       | some p => p.2
       | none => [])
    (typeScore * Rat.divInt 3 5 + keywordScore * Rat.divInt 2 5, kd.1, kd.2))
  let sorted := scored.mergeSort (fun a b => b.1 ≤ a.1)
  match sorted with
  | [] => .error "IndexError: list index out of range"
  | top :: rest =>
    let primary := make_runbook_fit top.1 top.2.1 top.2.2
    let alternatives := ((rest.take 3).filter (fun x => Rat.divInt 1 10 < x.1)).map
      (fun x => make_runbook_fit x.1 x.2.1 x.2.2)
    .ok (primary, alternatives)

/-! ## Web-UI incident store and state machine (app/routers/incidents.py)

The database row is modelled directly as a record; each endpoint handler
becomes a function from the stored incident to its updated value, with
none standing for an aborting HTTP error (400/404/500), which performs no
update. -/

/-- IncidentStatus (app/models.py). -/
inductive IncidentStatus where
  | pending | triaged | approved | rejected | overridden | resolved
deriving DecidableEq, Repr

/-- TriageResult (app/models.py). -/
structure TriageResult where
  incidentType : IncidentType
  severity : Severity
  confidence : ℚ
  riskScore : ℚ
  ownerTeam : String
  shortSummary : String
  firstActions : List String
  primaryRunbook : RunbookFit
  alternativeRunbooks : List RunbookFit
  needsHumanReview : Bool
  policyOverrideReason : Option String

/-- StoredIncident (app/models.py). -/
structure StoredIncident where
  id : String
  title : String
  description : String
  component : String
  environment : Environment
  reporter : String
  status : IncidentStatus
  createdAt : Int
  updatedAt : Int
  triage : Option TriageResult
  decisionBy : Option String
  decisionAt : Option Int
  decisionNote : Option String
  originalSeverity : Option Severity

/-- IncidentCreate (app/models.py). -/
structure IncidentCreate where
  title : String
  description : String
  component : String
  environment : Environment
  reporter : String

/-- OverrideRequest (app/routers/incidents.py). -/
structure OverrideRequest where
  severity : Option String
  category : Option String
  reason : String

/-- create_incident (app/routers/incidents.py): stores a pending incident
with no triage. -/
def createIncident (c : IncidentCreate) (id : String) (now : Int) :
    StoredIncident :=
  { id := id
    title := c.title
    description := c.description
    component := c.component
    environment := c.environment
    reporter := c.reporter
    status := .pending
    createdAt := now
    updatedAt := now
    triage := none
    decisionBy := none
    decisionAt := none
    decisionNote := none
    originalSeverity := none }

/-- The state update of triage_incident (app/routers/incidents.py): the
triage result computed by _run_triage is stored and the status becomes
triaged.  The computation itself (mock LLM, policy, risk, runbooks)
always yields some TriageResult; the state machine quantifies over it. -/
def applyTriageResult (inc : StoredIncident) (t : TriageResult) (now : Int) :
    StoredIncident :=
  { inc with status := .triaged, triage := some t, updatedAt := now }

/-- approve_incident (app/routers/incidents.py): 400 (none) without a
triage; otherwise records the decision and the approved status, leaving
the triage unchanged. -/
def approveIncident (inc : StoredIncident) (now : Int) :
    Option StoredIncident :=
  match inc.triage with
  | none => none
  | some _ =>
    some { inc with status := .approved
                    decisionBy := some "web-user"
                    decisionAt := some now
                    decisionNote := some "Approved via web UI"
                    updatedAt := now }

/-- The severity step of override_incident (app/routers/incidents.py): a
truthy requested severity is parsed (400, i.e. none, on an unknown value)
and installed together with a recomputed risk score. -/
def overrideSeverityStep (inc : StoredIncident) (td0 : TriageResult)
    (req : OverrideRequest) : Option TriageResult :=
  match req.severity with
  | some s =>
    if s ≠ "" then
      match severityFromString (strUpper s) with
      | some newSev =>
        some { td0 with
               severity := newSev
               riskScore := calculate_risk_score newSev td0.confidence
                 inc.environment }
      | none => none
    else some td0
  | none => some td0

/-- The category step of override_incident: a truthy requested category is
parsed (none on an unknown value) and installed together with re-matched
runbooks; a runbook-matching failure propagates as none. -/
def overrideCategoryStep (runbooks : List (String × RunbookEntry))
    (inc : StoredIncident) (td1 : TriageResult) (req : OverrideRequest) :
    Option TriageResult :=
  match req.category with
  | some c =>
    if c ≠ "" then
      match incidentTypeFromString (strLower c) with
      | some newCat =>
        match match_runbooks runbooks newCat inc.title inc.description with
        | .ok pa =>
          some { td1 with
                 incidentType := newCat
                 primaryRunbook := pa.1
                 alternativeRunbooks := pa.2 }
        | .error _ => none
      | none => none
    else some td1
  | none => some td1

/-- override_incident (app/routers/incidents.py): 400 (none) without a
triage; an invalid severity or category, or a runbook-matching failure,
aborts (none) before any update; otherwise the status becomes overridden
and original_severity is set to the severity read from the stored triage
just before this override. -/
def overrideIncident (runbooks : List (String × RunbookEntry))
    (inc : StoredIncident) (req : OverrideRequest) (now : Int) :
    Option StoredIncident :=
  match inc.triage with
  | none => none
  | some td0 =>
    match overrideSeverityStep inc td0 req with
    | none => none
    | some td1 =>
      match overrideCategoryStep runbooks inc td1 req with
      | none => none
      | some td2 =>
        some { inc with status := .overridden
                        triage := some td2
                        decisionBy := some "web-user"
                        decisionAt := some now
                        decisionNote := some req.reason
                        originalSeverity := some td0.severity
                        updatedAt := now }

/-- resolve_incident (app/routers/incidents.py): no triage requirement;
records the decision and the resolved status. -/
def resolveIncident (inc : StoredIncident) (note : String) (now : Int) :
    StoredIncident :=
  { inc with status := .resolved
             decisionBy := some "web-user"
             decisionAt := some now
             decisionNote := some note
             updatedAt := now }

/-- States of a stored web incident reachable through the web-UI
operations: create, triage, approve, override, resolve
(app/routers/incidents.py). -/
inductive Reached (runbooks : List (String × RunbookEntry)) :
    StoredIncident → Prop where
  | created (c : IncidentCreate) (id : String) (now : Int) :
    Reached runbooks (createIncident c id now)
  | triaged (s : StoredIncident) (t : TriageResult) (now : Int) :
    Reached runbooks s → Reached runbooks (applyTriageResult s t now)
  | approved (s s' : StoredIncident) (now : Int) :
    Reached runbooks s → approveIncident s now = some s' →
    Reached runbooks s'
  | overridden (s s' : StoredIncident) (req : OverrideRequest) (now : Int) :
    Reached runbooks s → overrideIncident runbooks s req now = some s' →
    Reached runbooks s'
  | resolved (s : StoredIncident) (note : String) (now : Int) :
    Reached runbooks s → Reached runbooks (resolveIncident s note now)

/-! ## Concrete inputs used by witnesses and counterexamples -/

/-- A staging incident (cf. tests/test_policy.py staging fixture). -/
def incStaging : NormalizedIncident :=
  { jiraKey := "INC-002"
    summary := "Staging database connection failures"
    description := "Database connection pool exhausted in staging environment."
    labels := ["staging"]
    component := "database"
    environment := .staging
    reporter := "Test User"
    createdAt := 0
    rawPayload := .null }

/-- A prod incident whose text matches both a security and an outage
keyword. -/
def incSec : NormalizedIncident :=
  { jiraKey := "INC-SEC-001"
    summary := "Security breach causing outage"
    description := ""
    labels := ["prod", "security"]
    component := "api-gateway"
    environment := .prod
    reporter := "Test User"
    createdAt := 0
    rawPayload := .null }

/-- A prod incident whose text matches no outage and no security
keyword. -/
def incPlainProd : NormalizedIncident :=
  { jiraKey := "INC-007"
    summary := "API latency elevated"
    description := ""
    labels := ["prod"]
    component := "api-gateway"
    environment := .prod
    reporter := "Test User"
    createdAt := 0
    rawPayload := .null }

/-- An application/P1 verdict. -/
def verdictP1app : LLMTriageResult :=
  { incidentType := .application
    severity := .P1
    confidence := Rat.divInt 17 20
    ownerTeam := "platform"
    shortSummary := "Test summary"
    firstActions := ["Check logs"]
    runbookSuggestion := "runbook-app-debug" }

/-- An application/P4 verdict. -/
def verdictP4app : LLMTriageResult :=
  { verdictP1app with severity := .P4 }

/-- A security/P4 verdict. -/
def verdictSecP4 : LLMTriageResult :=
  { verdictP1app with incidentType := .security, severity := .P4 }

/-- The end-to-end scenario payload of C4: issuetype Incident, prod outage
summary, labels prod and urgent, component auth-service. -/
def payloadC4 : Json := .obj [
  ("webhookEvent", .str "jira:issue_created"),
  ("issue", .obj [
    ("key", .str "INC-123"),
    ("fields", .obj [
      ("issuetype", .obj [("name", .str "Incident")]),
      ("summary", .str "Production API outage - users cannot login"),
      ("labels", .arr [.str "prod", .str "urgent"]),
      ("components", .arr [.obj [("name", .str "auth-service")]])])])]

/-- The normalized form of payloadC4 (validated by C4 theorems). -/
def incC4 : NormalizedIncident :=
  { jiraKey := "INC-123"
    summary := "Production API outage - users cannot login"
    description := ""
    labels := ["prod", "urgent"]
    component := "auth-service"
    environment := .prod
    reporter := "unknown"
    createdAt := 0
    rawPayload := payloadC4 }

/-! ## Claim theorems: policy engine -/

/-- C1: for every normalized incident with environment not prod and every
LLM verdict, the policy engine caps a severity more severe than P3 to P3,
leaves P3/P4 unchanged (the prod-only outage and security rules are in the
skipped prod branch), so the final severity is always P3 or P4. -/
theorem C1_nonprod_final_p3_or_p4 (inc : NormalizedIncident)
    (llm : LLMTriageResult) (h : inc.environment ≠ Environment.prod) :
    (applyPolicies inc llm).finalSeverity =
      (if severityOrder llm.severity < severityOrder Severity.P3 then Severity.P3
       else llm.severity) ∧
    ((applyPolicies inc llm).finalSeverity = Severity.P3 ∨
     (applyPolicies inc llm).finalSeverity = Severity.P4) := by
  simp only [applyPolicies, if_pos h]
  cases hs : llm.severity <;> simp [severityOrder, capSeverity]

/-- Witness for C1 at the staging incident with a P1 verdict. -/
theorem C1_nonprod_final_p3_or_p4_witness :
    incStaging.environment ≠ Environment.prod ∧
    ((applyPolicies incStaging verdictP1app).finalSeverity =
       (if severityOrder verdictP1app.severity < severityOrder Severity.P3
        then Severity.P3 else verdictP1app.severity) ∧
     ((applyPolicies incStaging verdictP1app).finalSeverity = Severity.P3 ∨
      (applyPolicies incStaging verdictP1app).finalSeverity = Severity.P4)) :=
  ⟨by decide, C1_nonprod_final_p3_or_p4 incStaging verdictP1app (by decide)⟩

/-- C2: for every normalized incident with environment prod whose
summary-plus-description matches a security keyword, and every verdict,
the final severity is P1 (in particular also when an outage keyword
matches as well: the security rule runs after the outage floor and sets P1
unconditionally). -/
theorem C2_prod_security_text_p1 (inc : NormalizedIncident)
    (llm : LLMTriageResult) (henv : inc.environment = Environment.prod)
    (hsec : containsKeywords (inc.summary ++ " " ++ inc.description)
      SECURITY_KEYWORDS = true) :
    (applyPolicies inc llm).finalSeverity = Severity.P1 := by
  simp [applyPolicies, henv, hsec]

/-- Witness for C2 at a prod incident matching both a security and an
outage keyword, with a P4 verdict. -/
theorem C2_prod_security_text_p1_witness :
    incSec.environment = Environment.prod ∧
    containsKeywords (incSec.summary ++ " " ++ incSec.description)
      SECURITY_KEYWORDS = true ∧
    containsKeywords (incSec.summary ++ " " ++ incSec.description)
      OUTAGE_KEYWORDS = true ∧
    (applyPolicies incSec verdictP4app).finalSeverity = Severity.P1 :=
  ⟨rfl, by decide, by decide,
   C2_prod_security_text_p1 incSec verdictP4app rfl (by decide)⟩

/-- C3 counterexample: a prod incident whose text matches no security and
no outage keyword, with a verdict of category security and severity P4,
commits final severity P4, not P1 — the policy engine never consults the
verdict category for the security rule, so the claimed invariant fails. -/
theorem C3_counterexample :
    incPlainProd.environment = Environment.prod ∧
    verdictSecP4.incidentType = IncidentType.security ∧
    (applyPolicies incPlainProd verdictSecP4).finalSeverity = Severity.P4 ∧
    (applyPolicies incPlainProd verdictSecP4).finalSeverity ≠ Severity.P1 :=
  ⟨rfl, rfl, by decide, by decide⟩

/-- C3 (amended): for environment prod and a verdict of category security,
the committed final severity is P1 provided the incident text matches a
security keyword — the rule is driven by the text, not by the verdict
category. -/
theorem C3_prod_security_category_p1 (inc : NormalizedIncident)
    (llm : LLMTriageResult) (henv : inc.environment = Environment.prod)
    (hcat : llm.incidentType = IncidentType.security)
    (hsec : containsKeywords (inc.summary ++ " " ++ inc.description)
      SECURITY_KEYWORDS = true) :
    (applyPolicies inc llm).finalSeverity = Severity.P1 := by
  simp [applyPolicies, henv, hsec]

/-- Witness for the amended C3 at a prod security-text incident with a
security/P4 verdict. -/
theorem C3_prod_security_category_p1_witness :
    incSec.environment = Environment.prod ∧
    verdictSecP4.incidentType = IncidentType.security ∧
    containsKeywords (incSec.summary ++ " " ++ incSec.description)
      SECURITY_KEYWORDS = true ∧
    (applyPolicies incSec verdictSecP4).finalSeverity = Severity.P1 :=
  ⟨rfl, rfl, by decide,
   C3_prod_security_category_p1 incSec verdictSecP4 rfl rfl (by decide)⟩

/-- C4 counterexample: on the prod-outage scenario payload, the mock LLM
already classifies severity P2 (its severity keywords include outage and
cannot), so the outage floor does not fire and the policy result has
severity_overridden = false, contradicting the claimed overridden = true. -/
theorem C4_counterexample :
    normalize_jira_webhook payloadC4 0 = .ok (some incC4) ∧
    (applyPolicies incC4 (mockTriage incC4)).severityOverridden = false :=
  ⟨rfl, by decide⟩

/-- C4 (amended): the scenario payload normalizes to a prod incident; the
mock backend classifies it application/P2; the policy engine commits final
severity P2 with severity_overridden = false (the verdict is already P2),
and the emitted labels are exactly autopilot, type:application, sev:P2. -/
theorem C4_prod_outage_scenario :
    normalize_jira_webhook payloadC4 0 = .ok (some incC4) ∧
    (mockTriage incC4).incidentType = IncidentType.application ∧
    (mockTriage incC4).severity = Severity.P2 ∧
    (applyPolicies incC4 (mockTriage incC4)).finalSeverity = Severity.P2 ∧
    (applyPolicies incC4 (mockTriage incC4)).severityOverridden = false ∧
    (applyPolicies incC4 (mockTriage incC4)).labelsToAdd =
      ["autopilot", "type:application", "sev:P2"] :=
  ⟨rfl, by decide, by decide, by decide, by decide, by decide⟩

/-- C10: the policy verdict's overridden flag is true exactly when the
final severity differs from the verdict's original severity; and (second
conjunct) on a prod security-text incident with a verdict already at P1,
an override reason is recorded while the flag stays false. -/
theorem C10_overridden_iff_severity_changed :
    (∀ (inc : NormalizedIncident) (llm : LLMTriageResult),
      ((applyPolicies inc llm).severityOverridden = true ↔
        (applyPolicies inc llm).finalSeverity ≠ llm.severity)) ∧
    ((applyPolicies incSec verdictP1app).overrideReason ≠ none ∧
     (applyPolicies incSec verdictP1app).severityOverridden = false) := by
  refine ⟨fun inc llm => ?_, by decide, by decide⟩
  have h : (applyPolicies inc llm).severityOverridden =
      decide (llm.severity ≠ (applyPolicies inc llm).finalSeverity) := rfl
  rw [h]
  simp [decide_eq_true_iff, ne_comm]

/-! ## Claim theorems: LLM response parser -/

/-- The JSON value is a string. -/
def isStrJson (v : Json) : Prop := ∃ s, v = Json.str s

/-- C5 counterexample: a JSON object whose severity field is the number 2
makes the parser raise (the source calls .upper() on the field value),
refuting that the parser succeeds on every JSON object. -/
theorem C5_counterexample :
    parse_llm_response (Json.obj [("severity", Json.num 2)]) =
      Except.error "AttributeError: upper" := rfl

/-- C5 (amended): for every JSON object whose incident-type and severity
fields, when present, are strings and whose confidence field, when
present, converts with float(), the parser succeeds, with the clamped
confidence in [0,1] and at most 7 first actions. -/
theorem C5_parser_succeeds_on_welltyped (m : List (String × Json))
    (hit : isStrJson (jgetD m "incident_type" (.str "unknown")))
    (hsev : isStrJson (jgetD m "severity" (.str "P4")))
    (hconf : (pyFloat (jgetD m "confidence" (.num (Rat.divInt 1 2)))).isOk = true) :
    ∃ r, parse_llm_response (.obj m) = .ok r ∧
      0 ≤ r.confidence ∧ r.confidence ≤ 1 ∧ r.firstActions.length ≤ 7 := by
  obtain ⟨its, hits⟩ := hit
  obtain ⟨sevs, hsevs⟩ := hsev
  rcases hq : pyFloat (jgetD m "confidence" (.num (Rat.divInt 1 2))) with e | q
  · rw [hq] at hconf
    simp [Except.isOk, Except.toBool] at hconf
  · simp only [parse_llm_response, hits, hsevs, hq, pyLower, pyUpper]
    refine ⟨_, rfl, le_max_left 0 _, max_le (by norm_num) (min_le_left 1 q), ?_⟩
    rcases jgetD m "first_actions" (.arr []) with _ | b | q2 | s2 | l | m2 <;>
      simp [List.length_take]

/-- Witness for the amended C5: a concrete object with mixed-case
category, lowercase severity, confidence 7 and nine first actions. -/
theorem C5_parser_succeeds_on_welltyped_witness :
    ∃ r, parse_llm_response (.obj
      [("incident_type", .str "Database"), ("severity", .str "p2"),
       ("confidence", .num 7),
       ("first_actions", .arr [.str "a", .num 1, .str "b", .str "c",
          .str "d", .str "e", .str "f", .str "g", .str "h"])]) = .ok r ∧
      0 ≤ r.confidence ∧ r.confidence ≤ 1 ∧ r.firstActions.length ≤ 7 :=
  C5_parser_succeeds_on_welltyped _ ⟨"Database", rfl⟩ ⟨"p2", rfl⟩ rfl

/-! ## Claim theorems: normalizer skip behaviour -/

/-- The fields object of the C6 counterexample payload. -/
def fieldsNoKey : Json := .obj [
  ("issuetype", .obj [("name", .str "Incident")]),
  ("summary", .str "Prod incident")]

/-- The issue object of the C6 counterexample payload: no key member. -/
def issueNoKey : Json := .obj [("fields", fieldsNoKey)]

/-- The C6 counterexample payload: issuetype Incident but no issue key. -/
def payloadNoKey : Json := .obj [("issue", issueNoKey)]

/-- C6 counterexample: a payload whose lowercased issue-type name is
exactly "incident" still yields the skip result, because the issue key is
missing — refuting that skips happen exactly when the type is not
incident. -/
theorem C6_counterexample :
    webhookHeader payloadNoKey = .ok ("incident", issueNoKey, fieldsNoKey) ∧
    normalize_jira_webhook payloadNoKey 5 = .ok none :=
  ⟨rfl, rfl⟩

/-- buildIncident never produces the skip result. -/
theorem buildIncident_map_some_ne_ok_none (payload fields keyJson : Json)
    (now : Int) :
    (buildIncident payload fields keyJson now).map some ≠ .ok none := by
  rcases buildIncident payload fields keyJson now with e | v <;>
    simp [Except.map]

/-- C6 (amended): whenever the issue/fields/issuetype extraction prefix
succeeds, the normalizer returns the skip result exactly when the
lowercased issue-type name is not "incident" or the issue key is missing
or falsy; when the name is "incident" and the key is truthy, the result is
the incident record or a raised validation error, never the skip. -/
theorem C6_skip_iff (payload : Json) (now : Int) (tn : String)
    (issue fields keyJson : Json)
    (hh : webhookHeader payload = .ok (tn, issue, fields))
    (hk : pyGetD issue "key" (.str "") = .ok keyJson) :
    (normalize_jira_webhook payload now = .ok none ↔
      (tn ≠ "incident" ∨ pyTruthy keyJson = false)) := by
  unfold normalize_jira_webhook
  rw [hh]
  by_cases htn : tn = "incident"
  · subst htn
    simp only [ne_eq, not_true_eq_false, if_false, hk, false_or]
    by_cases hkt : pyTruthy keyJson
    · simp [hkt, buildIncident_map_some_ne_ok_none]
    · simp [hkt]
  · simp [htn]

/-- The Story payload used to witness the amended C6. -/
def payloadStory : Json := .obj [
  ("issue", .obj [
    ("key", .str "FEAT-456"),
    ("fields", .obj [
      ("issuetype", .obj [("name", .str "Story")]),
      ("summary", .str "Add dark mode support")])])]

/-- Witness for the amended C6 at the Story payload: the skip result holds
because the lowercased type name "story" is not "incident". -/
theorem C6_skip_iff_witness :
    normalize_jira_webhook payloadStory 0 = .ok none ↔
      ("story" ≠ "incident" ∨ pyTruthy (Json.str "FEAT-456") = false) :=
  C6_skip_iff payloadStory 0 "story" _ _ (Json.str "FEAT-456") rfl rfl

/-! ## Claim theorems: correlator -/

/-- A similarity function agreeing with difflib on identical strings
(ratio 1) and returning 0 otherwise; used to instantiate the abstract
SequenceMatcher ratio on concrete inputs. -/
def eqSim : String → String → ℚ := fun a b => if a == b then 1 else 0

/-- A stored correlation record with an empty external key. -/
def rowEmptyKey : IncidentRow :=
  { jiraKey := ""
    summary := "Payments API 500 errors"
    component := "payments"
    environment := "prod"
    createdAt := 100 }

/-- A queried incident with an empty external key, same component and
identical summary. -/
def incEmptyKey : NormalizedIncident :=
  { jiraKey := ""
    summary := "Payments API 500 errors"
    description := ""
    labels := ["prod"]
    component := "payments"
    environment := .prod
    reporter := "u"
    createdAt := 100
    rawPayload := .null }

/-- C7 counterexample: with an empty queried key the store query skips the
self-exclusion clause (the source guards it on the truthiness of
exclude_key), so the correlator returns the queried incident's own
external key. -/
theorem C7_counterexample :
    check_correlation eqSim [rowEmptyKey] 100 30 incEmptyKey =
      (true, some "") ∧ incEmptyKey.jiraKey = "" :=
  ⟨by decide, rfl⟩

/-- C7 (amended): for every similarity function, store state and queried
incident with a non-empty external key: an unknown component yields
(false, none) regardless of the store, and any returned key differs from
the queried key and belongs to a stored record with the same component
created within the window of now. -/
theorem C7_correlator_sound (sim : String → String → ℚ)
    (db : List IncidentRow) (now windowMinutes : Int)
    (inc : NormalizedIncident) (hkey : inc.jiraKey ≠ "") :
    (inc.component = "unknown" →
      check_correlation sim db now windowMinutes inc = (false, none)) ∧
    (∀ k, (check_correlation sim db now windowMinutes inc).2 = some k →
      k ≠ inc.jiraKey ∧
      ∃ r ∈ db, r.jiraKey = k ∧ r.component = inc.component ∧
        now - windowMinutes * 60 < r.createdAt) := by
  constructor
  · intro hcomp
    simp [check_correlation, hcomp]
  · intro k hk
    unfold check_correlation at hk
    by_cases hcomp : inc.component == "unknown"
    · simp [hcomp] at hk
    · simp only [hcomp, if_false, Bool.false_eq_true] at hk
      rcases hfind : (find_correlated_incidents db now inc.component
          windowMinutes inc.jiraKey).find? (fun r =>
            decide (SIMILARITY_THRESHOLD ≤
              calculate_similarity sim inc.summary r.summary)) with _ | r
      · rw [hfind] at hk
        simp at hk
      · rw [hfind] at hk
        simp only at hk
        obtain rfl : r.jiraKey = k := by
          simpa using hk
        have hmem := List.mem_of_find?_eq_some hfind
        unfold find_correlated_incidents at hmem
        rw [List.mem_filter] at hmem
        obtain ⟨hdb, hpred⟩ := hmem
        rw [if_pos hkey] at hpred
        simp only [Bool.and_eq_true, beq_iff_eq, bne_iff_ne,
          decide_eq_true_eq] at hpred
        exact ⟨hpred.2, r, hdb, rfl, hpred.1.1, hpred.1.2⟩

/-- An incident with unknown component and a non-empty key. -/
def incUnknownComp : NormalizedIncident :=
  { incEmptyKey with jiraKey := "INC-1", component := "unknown" }

/-- Witness for the amended C7: with an unknown component the correlator
returns (false, none) without consulting the (here non-empty) store. -/
theorem C7_correlator_sound_witness :
    incUnknownComp.jiraKey ≠ "" ∧
    (incUnknownComp.component = "unknown" →
      check_correlation eqSim [rowEmptyKey] 100 30 incUnknownComp =
        (false, none)) :=
  ⟨by decide,
   (C7_correlator_sound eqSim [rowEmptyKey] 100 30 incUnknownComp
     (by decide)).1⟩

/-! ## Claim theorems: web-UI incident lifecycle -/

/-- A web-form creation request. -/
def webCreate : IncidentCreate :=
  { title := "Checkout latency"
    description := "Checkout pages are slow"
    component := "web"
    environment := .prod
    reporter := "web-user" }

/-- A concrete triage result for lifecycle scenarios. -/
def tWeb : TriageResult :=
  { incidentType := .application
    severity := .P2
    confidence := Rat.divInt 17 20
    riskScore := Rat.divInt 1 2
    ownerTeam := "engineering"
    shortSummary := "[MOCK] Checkout latency"
    firstActions := ["Check web service logs"]
    primaryRunbook :=
      { runbookKey := "application"
        runbookName := "Application Triage"
        fitScore := Rat.divInt 3 5
        runbookUrl := ""
        steps := ["Check logs"] }
    alternativeRunbooks := []
    needsHumanReview := false
    policyOverrideReason := none }

/-- A pending incident resolved directly, without ever being triaged. -/
def incWebResolved : StoredIncident :=
  resolveIncident (createIncident webCreate "id-1" 0) "done" 1

/-- C8 counterexample: the resolve endpoint has no triage requirement, so
an untriaged pending incident can be resolved directly; the resulting
reachable state has status resolved and no triage result, refuting the
claimed invariant for the resolved status. -/
theorem C8_counterexample :
    Reached [] incWebResolved ∧ incWebResolved.status = .resolved ∧
    incWebResolved.triage = none :=
  ⟨Reached.resolved _ "done" 1 (Reached.created webCreate "id-1" 0),
   rfl, rfl⟩

/-- C8 (amended): for every reachable stored web incident, the statuses
approved, rejected and overridden imply a triage result is present (the
resolved status does not: a pending incident may be resolved directly). -/
theorem C8_decided_states_have_triage
    (runbooks : List (String × RunbookEntry)) (s : StoredIncident)
    (hs : Reached runbooks s)
    (hst : s.status = .approved ∨ s.status = .rejected ∨
      s.status = .overridden) :
    s.triage.isSome = true := by
  revert hst
  induction hs with
  | created c id now =>
    intro hst
    simp [createIncident] at hst
  | triaged s t now _ _ =>
    intro _
    simp [applyTriageResult]
  | approved s s' now _ heq _ =>
    intro _
    unfold approveIncident at heq
    rcases htr : s.triage with _ | td <;> rw [htr] at heq
    · cases heq
    · obtain rfl : _ = s' := by injection heq
      simp [htr]
  | overridden s s' req now _ heq _ =>
    intro _
    unfold overrideIncident at heq
    rcases htr : s.triage with _ | td0
    · rw [htr] at heq
      cases heq
    · simp only [htr] at heq
      rcases h1 : overrideSeverityStep s td0 req with _ | td1
      · rw [h1] at heq
        cases heq
      · simp only [h1] at heq
        rcases h2 : overrideCategoryStep runbooks s td1 req with _ | td2
        · rw [h2] at heq
          cases heq
        · simp only [h2, Option.some.injEq] at heq
          subst heq
          simp
  | resolved s note now _ _ =>
    intro hst
    simp [resolveIncident] at hst

/-- A triaged incident and its approved successor. -/
def incWebTriaged : StoredIncident :=
  applyTriageResult (createIncident webCreate "id-2" 0) tWeb 1

/-- The approved state produced by the approve endpoint. -/
def incWebApproved : StoredIncident :=
  { incWebTriaged with
    status := .approved
    decisionBy := some "web-user"
    decisionAt := some 2
    decisionNote := some "Approved via web UI"
    updatedAt := 2 }

/-- Witness for the amended C8 at the create, triage, approve chain. -/
theorem C8_decided_states_have_triage_witness :
    (incWebApproved.status = .approved ∨ incWebApproved.status = .rejected ∨
     incWebApproved.status = .overridden) ∧
    incWebApproved.triage.isSome = true :=
  ⟨Or.inl rfl,
   C8_decided_states_have_triage [] incWebApproved
     (Reached.approved incWebTriaged incWebApproved 2
       (Reached.triaged _ tWeb 1 (Reached.created webCreate "id-2" 0)) rfl)
     (Or.inl rfl)⟩

/-- The triaged incident used to exercise overrides. -/
def incOv0 : StoredIncident :=
  applyTriageResult (createIncident webCreate "id-3" 0) tWeb 1

/-- First override request: severity P3. -/
def reqOv1 : OverrideRequest :=
  { severity := some "P3", category := none, reason := "observed impact" }

/-- Second override request: severity P4. -/
def reqOv2 : OverrideRequest :=
  { severity := some "P4", category := none, reason := "false alarm" }

/-- C9 counterexample: the triage starts at P2; after the first override
original_severity records P2, but a second override rewrites it to P3 (the
severity current just before the second override), so the pre-first-
override severity is not preserved from the first override onward. -/
theorem C9_counterexample :
    tWeb.severity = Severity.P2 ∧
    (overrideIncident [] incOv0 reqOv1 2).map
      (fun s => s.originalSeverity) = some (some Severity.P2) ∧
    ((overrideIncident [] incOv0 reqOv1 2).bind
      (fun s1 => overrideIncident [] s1 reqOv2 3)).map
        (fun s2 => s2.originalSeverity) = some (some Severity.P3) ∧
    (some (some Severity.P3) : Option (Option Severity)) ≠
      some (some Severity.P2) :=
  ⟨rfl, rfl, rfl, by decide⟩

/-- C9 (amended): every successful override stores in original_severity
the severity read from the triage immediately before that override; a
later override therefore replaces it with the severity the previous
override installed, while other triage fields may change freely. -/
theorem C9_override_records_pre_override_severity
    (runbooks : List (String × RunbookEntry)) (inc : StoredIncident)
    (req : OverrideRequest) (now : Int) (td : TriageResult)
    (s' : StoredIncident) (htr : inc.triage = some td)
    (hov : overrideIncident runbooks inc req now = some s') :
    s'.originalSeverity = some td.severity := by
  unfold overrideIncident at hov
  simp only [htr] at hov
  rcases h1 : overrideSeverityStep inc td req with _ | td1
  · rw [h1] at hov
    cases hov
  · simp only [h1] at hov
    rcases h2 : overrideCategoryStep runbooks inc td1 req with _ | td2
    · rw [h2] at hov
      cases hov
    · simp only [h2, Option.some.injEq] at hov
      subst hov
      simp

/-- The state after the first override of incOv0. -/
def incOv1 : StoredIncident :=
  { incOv0 with
    status := .overridden
    triage := some { tWeb with
      severity := .P3
      riskScore := calculate_risk_score .P3 tWeb.confidence incOv0.environment }
    decisionBy := some "web-user"
    decisionAt := some 2
    decisionNote := some reqOv1.reason
    originalSeverity := some tWeb.severity
    updatedAt := 2 }

/-- Witness for the amended C9 at the first override of incOv0. -/
theorem C9_override_records_pre_override_severity_witness :
    incOv0.triage = some tWeb ∧ incOv1.originalSeverity = some tWeb.severity :=
  ⟨rfl,
   C9_override_records_pre_override_severity [] incOv0 reqOv1 2 tWeb incOv1
     rfl rfl⟩

end Autopilot
